import Mathlib

set_option linter.unusedVariables false

/-!
Verification of the staged-load scheduler and endpoint client of
`src/locust/locust_autoscaling_benchmark_sm.py`.

The scheduler core is `StagesShape`: a class attribute `stages` (a list of
dicts with keys `duration`, `users`, `spawn_rate`) and a method `tick` that
scans the list in order and returns the `(users, spawn_rate)` pair of the
first stage whose `duration` is strictly greater than the current run time,
or `None` when no stage qualifies.

Elapsed run time is a float in the source (`get_run_time`); it is embedded
as a rational number `ℚ`.  Stage `duration` and `spawn_rate` values are
numeric literals in the source table and are likewise embedded as `ℚ`;
`users` counts are naturals.
-/

/-- One entry of `StagesShape.stages`: a dict
`{"duration": d, "users": u, "spawn_rate": r}`. -/
structure Stage where
  duration : ℚ
  users : Nat
  spawn_rate : ℚ
deriving DecidableEq, Repr

/-- The literal class attribute `StagesShape.stages` from the source
(lines 121-132): ten stages with cumulative boundaries 120..1200. -/
def stagesDefault : List Stage :=
  [⟨120, 2, 2⟩, ⟨240, 4, 2⟩, ⟨360, 6, 2⟩, ⟨480, 8, 2⟩, ⟨600, 10, 2⟩,
   ⟨720, 12, 2⟩, ⟨840, 14, 2⟩, ⟨960, 16, 2⟩, ⟨1080, 18, 2⟩, ⟨1200, 20, 2⟩]

/-- The three-stage table with boundaries `[120,240,360]` and targets
`[2,4,6]` used by the spec's worked example; these are exactly the first
three entries of the source table. -/
def stageTable3 : List Stage := stagesDefault.take 3

/-- The loop body of `StagesShape.tick` (lines 137-142): scan the stage
list in declared order and return `(users, spawn_rate)` of the first stage
with `run_time < stage["duration"]`, else `None`. -/
def tickScan : List Stage → ℚ → Option (Nat × ℚ)
  | [], _ => none
  | s :: rest, run_time =>
    if run_time < s.duration then some (s.users, s.spawn_rate)
    else tickScan rest run_time

/-- The `StagesShape` object: its only data relevant to `tick` is the
`stages` list.  The Python constructor is inherited from the framework base
class and performs no validation of `stages`. -/
structure StagesShape where
  stages : List Stage
deriving DecidableEq, Repr

/-- The method `StagesShape.tick` (lines 134-142), with the run time passed
explicitly in place of `self.get_run_time()`. -/
def StagesShape.tick (self : StagesShape) (run_time : ℚ) : Option (Nat × ℚ) :=
  tickScan self.stages run_time

/-- The Python exception classes relevant to the claims: `KeyError` from
`globals()["payload"]`, `ValueError` from `random.randint` on an empty
range, locust's `ConfigurationError`, and any error raised by the boto3
endpoint invocation. -/
inductive PyExc where
  | keyError
  | valueError
  | configurationError
  | clientError
deriving DecidableEq, Repr

/-- Python object construction `StagesShape()` as it appears in the source:
it always succeeds, for any stage list including the empty one. -/
def mkStagesShape (stages : List Stage) : Except PyExc StagesShape :=
  Except.ok ⟨stages⟩

/-- Index-level view of the scan: the position (in declared order) of the
stage that `tick` returns, if any. -/
def resolveIdx : List Stage → ℚ → Option Nat
  | [], _ => none
  | s :: rest, t =>
    if t < s.duration then some 0
    else (resolveIdx rest t).map (· + 1)

/-- Modelled from the spec: `ceil(spawn_rate * dt)`, the per-tick cap on
new worker starts (spec §4.3).  The ConcurrencyController is realized by
the locust runner, which is not part of this repository's sources. -/
def spawnCap (spawn_rate dt : ℚ) : Nat := (Rat.ceil (spawn_rate * dt)).toNat

/-- Modelled from the spec: the number of worker starts the controller
attempts in one reconcile tick — up to the cap, never exceeding the
target concurrency. -/
def attemptedStarts (current target cap : Nat) : Nat :=
  if current < target then min cap (target - current) else 0

/-- Modelled from the spec: one reconcile tick of the
ConcurrencyController.  `failures` of the attempted starts fail, and a
failed start does not increment the active count; above target, workers
are stopped immediately down to target; at target, no action. -/
def reconcileStep (current target cap failures : Nat) : Nat :=
  if current < target then
    current + (attemptedStarts current target cap - failures)
  else target

/-- Modelled from the spec: run one reconcile tick per entry of
`failures` (the per-tick worker-start failure counts), starting from `a`
active workers. -/
def runTicks (target cap : Nat) (failures : List Nat) (a : Nat) : Nat :=
  failures.foldl (fun acc f => reconcileStep acc target cap f) a

/-- The module-global `content_type` (line 39 of the source). -/
def content_type : String := "application/octet-stream"

/-- Alias for the module-global `content_type`, usable where the
`SageMakerClient` namespace shadows the global name. -/
def moduleContentType : String := content_type

/-- The module globals that the source reads and writes: only the
`"payload"` key matters to the claims (`globals()["payload"]`). -/
structure Globals where
  payload : Option String
deriving DecidableEq, Repr

/-- The data of a constructed `SageMakerClient` relevant to the claims:
the payload captured from the module globals and the content type.  The
boto3 session and runtime client carry no data the claims mention. -/
structure SageMakerClient where
  payload : String
  content_type : String
deriving DecidableEq, Repr

/-- The constructor `SageMakerClient.__init__` (lines 44-54): reads
`globals()["payload"]`; a missing key raises `KeyError` at construction
time, before any `send` can be reached. -/
def SageMakerClient.init (g : Globals) : Except PyExc SageMakerClient :=
  match g.payload with
  | some p => Except.ok ⟨p, moduleContentType⟩
  | none => Except.error PyExc.keyError

/-- The constructor `SageMakerUser.__init__` (lines 100-105): writes the payload file's
contents into the module globals (overwriting any previous value), then
constructs the client.  Returns the updated globals and the construction
result. -/
def SageMakerUser.init (payload_contents : String) (g : Globals) :
    Globals × Except PyExc SageMakerClient :=
  let g' : Globals := ⟨some payload_contents⟩
  (g', SageMakerClient.init g')

/-- One `events.request.fire(**request_meta)` payload, with the fields of
the `request_meta` dict built in `send` that the claims mention.
`response_time` is absent from the dict until line 84 sets it, hence an
`Option`. -/
structure RequestMeta where
  request_type : String
  name : String
  num_models : Int
  response_length : Nat
  exception : Option PyExc
  response_time : Option ℚ
deriving DecidableEq, Repr

/-- The method `SageMakerClient.send` (lines 56-86).  The returned list is the
sequence of `events.request.fire` calls the body makes.  The `try` block
covers both the `TargetModel` string construction — whose
`random.randint(0, model_count - 1)` raises `ValueError` exactly when
`model_count - 1 < 0` — and the endpoint invocation itself, whose outcome
is external and passed in as `invoke_outcome`; the measured wall time in
milliseconds is passed in as `elapsed_ms`. -/
def SageMakerClient.send (self : SageMakerClient)
    (endpoint_name use_case model_name : String) (model_count : Int)
    (invoke_outcome : Except PyExc Unit) (elapsed_ms : ℚ) :
    List RequestMeta :=
  let request_meta : RequestMeta :=
    { request_type := "InvokeEndpoint", name := model_name,
      num_models := model_count, response_length := 0,
      exception := none, response_time := none }
  let tried : Except PyExc Unit :=
    if model_count - 1 < 0 then Except.error PyExc.valueError
    else invoke_outcome
  let request_meta :=
    match tried with
    | Except.ok _ => request_meta
    | Except.error e => { request_meta with exception := some e }
  let request_meta := { request_meta with response_time := some elapsed_ms }
  [request_meta]

/-- The scan `tickScan` returns exactly the data of the stage at the index computed
by `resolveIdx`. -/
theorem tickScan_eq_resolveIdx (l : List Stage) (t : ℚ) :
    tickScan l t = (resolveIdx l t).bind
      (fun i => (l[i]?).map (fun s => (s.users, s.spawn_rate))) := by
  induction l with
  | nil => rfl
  | cons s rest ih =>
    by_cases h : t < s.duration
    · simp [tickScan, resolveIdx, h]
    · simp only [tickScan, resolveIdx, h, if_neg]
      rw [ih]
      cases hres : resolveIdx rest t with
      | none => simp
      | some i => simp

/-- The scan yields `none` exactly when every stage boundary is at most the
elapsed time. -/
theorem tickScan_eq_none_iff (l : List Stage) (t : ℚ) :
    tickScan l t = none ↔ ∀ s ∈ l, s.duration ≤ t := by
  induction l with
  | nil => simp [tickScan]
  | cons s rest ih =>
    simp only [tickScan, List.mem_cons, forall_eq_or_imp]
    by_cases h : t < s.duration
    · simp [if_pos h, not_le.mpr h]
    · simp [if_neg h, not_lt.mp h, ih]

/-- The index scan yields `none` exactly when every stage boundary is at
most the elapsed time. -/
theorem resolveIdx_eq_none_iff (l : List Stage) (t : ℚ) :
    resolveIdx l t = none ↔ ∀ s ∈ l, s.duration ≤ t := by
  induction l with
  | nil => simp [resolveIdx]
  | cons s rest ih =>
    simp only [resolveIdx, List.mem_cons, forall_eq_or_imp]
    by_cases h : t < s.duration
    · simp [if_pos h, not_le.mpr h]
    · simp [if_neg h, not_lt.mp h, ih]

/-- Forward characterization of the scan: if it returns index `i`, then
stage `i` has boundary strictly above `t` and every earlier stage's
boundary is at most `t`. -/
theorem resolveIdx_eq_some_spec (l : List Stage) (t : ℚ) (i : Nat)
    (h : resolveIdx l t = some i) :
    ∃ hi : i < l.length, t < (l.get ⟨i, hi⟩).duration ∧
      ∀ j (hj : j < i), (l.get ⟨j, Nat.lt_trans hj hi⟩).duration ≤ t := by
  induction l generalizing i with
  | nil => cases h
  | cons s rest ih =>
    by_cases hs : t < s.duration
    · simp only [resolveIdx, if_pos hs, Option.some.injEq] at h
      subst h
      refine ⟨Nat.succ_pos _, by simpa using hs, ?_⟩
      intro j hj
      exact absurd hj (Nat.not_lt_zero j)
    · simp only [resolveIdx, if_neg hs, Option.map_eq_some'] at h
      obtain ⟨i', hi', hii⟩ := h
      subst hii
      obtain ⟨hlen, hup, hall⟩ := ih i' hi'
      refine ⟨Nat.succ_lt_succ hlen, by simpa using hup, ?_⟩
      intro j hj
      cases j with
      | zero => simpa using not_lt.mp hs
      | succ j' => simpa using hall j' (Nat.lt_of_succ_lt_succ hj)

/-- Backward characterization: the scan returns index `i` whenever stage
`i` covers `t` and every earlier stage boundary is at most `t`. -/
theorem resolveIdx_eq_some_of (l : List Stage) (t : ℚ) (i : Nat)
    (hi : i < l.length) (hup : t < (l.get ⟨i, hi⟩).duration)
    (hlow : ∀ j (hj : j < i), (l.get ⟨j, Nat.lt_trans hj hi⟩).duration ≤ t) :
    resolveIdx l t = some i := by
  induction l generalizing i with
  | nil => exact absurd hi (Nat.not_lt_zero i)
  | cons s rest ih =>
    cases i with
    | zero =>
      have hs : t < s.duration := by simpa using hup
      simp [resolveIdx, if_pos hs]
    | succ i' =>
      have hs : ¬ t < s.duration :=
        not_lt.mpr (by simpa using hlow 0 (Nat.succ_pos i'))
      have hrec := ih i' (Nat.lt_of_succ_lt_succ hi) (by simpa using hup)
        (fun j hj => by simpa using hlow (j + 1) (Nat.succ_lt_succ hj))
      simp [resolveIdx, if_neg hs, hrec]

/-- C1 (counterexample): on the three-stage table, elapsed time 359 resolves
to stage 2 `(6, 2)`, not stage 1 `(4, 2)`, and elapsed time 360 already
yields the termination sentinel, not stage 2. -/
theorem c1_tick_vector_counterexample :
    StagesShape.tick ⟨stageTable3⟩ 359 ≠ some (4, 2) ∧
    StagesShape.tick ⟨stageTable3⟩ 360 ≠ some (6, 2) ∧
    StagesShape.tick ⟨stageTable3⟩ 359 = some (6, 2) ∧
    StagesShape.tick ⟨stageTable3⟩ 360 = none := by
  refine ⟨?_, ?_, ?_, ?_⟩ <;> decide

/-- C1 (amended): for the stage table with cumulative boundaries
`[120,240,360]` and target concurrencies `[2,4,6]`, resolving elapsed
times 0 and 119 yields stage 0 (target 2), resolving 120 yields stage 1
(target 4), resolving 359 yields stage 2 (target 6), and resolving 360 and
361 yields the termination sentinel. -/
theorem c1_tick_vector :
    StagesShape.tick ⟨stageTable3⟩ 0 = some (2, 2) ∧
    StagesShape.tick ⟨stageTable3⟩ 119 = some (2, 2) ∧
    StagesShape.tick ⟨stageTable3⟩ 120 = some (4, 2) ∧
    StagesShape.tick ⟨stageTable3⟩ 359 = some (6, 2) ∧
    StagesShape.tick ⟨stageTable3⟩ 360 = none ∧
    StagesShape.tick ⟨stageTable3⟩ 361 = none := by
  refine ⟨?_, ?_, ?_, ?_, ?_, ?_⟩ <;> decide

/-- C2 (counterexample): at an elapsed time exactly equal to stage 0's own
boundary (120 on the three-stage table), the scan returns stage 1, not
stage 0: the claimed window `(previous boundary, this boundary]` is wrong
on the closed side. -/
theorem c2_boundary_counterexample :
    stageTable3[0]? = some ⟨120, 2, 2⟩ ∧
    resolveIdx stageTable3 120 = some 1 ∧
    resolveIdx stageTable3 120 ≠ some 0 := by
  refine ⟨?_, ?_, ?_⟩ <;> decide

/-- C2 (amended): for a table with non-decreasing boundaries, each stage's
effective window is closed below and open above, `[previous boundary, own
boundary)`: for every stage index `i` and elapsed time `t` with
`boundary (i-1) ≤ t < boundary i` (for `i = 0`, any `t < boundary 0`),
the scan resolves `t` to stage `i`; consequently at an elapsed time
exactly equal to a stage's own boundary that stage is not returned. -/
theorem c2_window (l : List Stage)
    (hmono : l.Pairwise (fun a b => a.duration ≤ b.duration))
    (i : Nat) (hi : i < l.length) (t : ℚ)
    (hlow : i = 0 ∨ ∃ hpred : i - 1 < l.length,
      (l.get ⟨i - 1, hpred⟩).duration ≤ t)
    (hup : t < (l.get ⟨i, hi⟩).duration) :
    resolveIdx l t = some i := by
  apply resolveIdx_eq_some_of l t i hi hup
  intro j hj
  rcases hlow with rfl | ⟨hpred, hle⟩
  · exact absurd hj (Nat.not_lt_zero j)
  · have hmono' := List.pairwise_iff_get.mp hmono
    by_cases hji : j = i - 1
    · subst hji
      exact hle
    · have hj' : j < i - 1 := by omega
      exact le_trans (hmono' ⟨j, Nat.lt_trans hj hi⟩ ⟨i - 1, hpred⟩ hj') hle

/-- Witness for C2 (amended): on the three-stage table, elapsed time 150
lies in stage 1's window `[120, 240)` and resolves to stage 1. -/
theorem c2_window_witness :
    stageTable3.Pairwise (fun a b => a.duration ≤ b.duration) ∧
    resolveIdx stageTable3 150 = some 1 :=
  ⟨by decide,
   c2_window stageTable3 (by decide) 1 (by decide) 150
     (Or.inr ⟨by decide, by decide⟩) (by decide)⟩

/-- C3: whenever some stage boundary is strictly greater than the elapsed
time, `tick` returns exactly the first stage, in declared table order,
whose boundary is strictly greater than the elapsed time. -/
theorem c3_first_strictly_greater (shape : StagesShape) (t : ℚ)
    (h : ∃ s ∈ shape.stages, t < s.duration) :
    ∃ i, ∃ hi : i < shape.stages.length,
      resolveIdx shape.stages t = some i ∧
      shape.tick t = some ((shape.stages.get ⟨i, hi⟩).users,
        (shape.stages.get ⟨i, hi⟩).spawn_rate) ∧
      t < (shape.stages.get ⟨i, hi⟩).duration ∧
      ∀ j (hj : j < i), (shape.stages.get ⟨j, Nat.lt_trans hj hi⟩).duration ≤ t := by
  obtain ⟨s, hs, hst⟩ := h
  cases hres : resolveIdx shape.stages t with
  | none =>
    have := (resolveIdx_eq_none_iff _ _).mp hres s hs
    exact absurd hst (not_lt.mpr this)
  | some i =>
    obtain ⟨hi, hup, hall⟩ := resolveIdx_eq_some_spec _ _ _ hres
    refine ⟨i, hi, rfl, ?_, hup, hall⟩
    rw [StagesShape.tick, tickScan_eq_resolveIdx, hres]
    simp [List.getElem?_eq_getElem hi]

/-- Witness for C3: on the three-stage table at elapsed time 200, the
first stage with boundary above 200 is stage 1 and `tick` returns its
data. -/
theorem c3_first_strictly_greater_witness :
    (∃ s ∈ stageTable3, (200 : ℚ) < s.duration) ∧
    ∃ i, ∃ hi : i < stageTable3.length,
      resolveIdx stageTable3 200 = some i ∧
      StagesShape.tick ⟨stageTable3⟩ 200 = some ((stageTable3.get ⟨i, hi⟩).users,
        (stageTable3.get ⟨i, hi⟩).spawn_rate) ∧
      (200 : ℚ) < (stageTable3.get ⟨i, hi⟩).duration ∧
      ∀ j (hj : j < i), (stageTable3.get ⟨j, Nat.lt_trans hj hi⟩).duration ≤ 200 :=
  ⟨by decide, c3_first_strictly_greater ⟨stageTable3⟩ 200 (by decide)⟩

/-- C4: termination is sticky: once `tick` yields the sentinel `none`
(`Finished`) at elapsed time `t`, it yields `none` at every `t' ≥ t`. -/
theorem c4_finished_sticky (shape : StagesShape) (t t' : ℚ)
    (h : shape.tick t = none) (htt : t ≤ t') : shape.tick t' = none := by
  rw [StagesShape.tick, tickScan_eq_none_iff] at h ⊢
  exact fun s hs => le_trans (h s hs) htt

/-- Witness for C4: the three-stage table is finished at 400, hence also
at 500. -/
theorem c4_finished_sticky_witness :
    StagesShape.tick ⟨stageTable3⟩ 400 = none ∧ (400 : ℚ) ≤ 500 ∧
    StagesShape.tick ⟨stageTable3⟩ 500 = none :=
  ⟨by decide, by decide, c4_finished_sticky ⟨stageTable3⟩ 400 500 (by decide) (by decide)⟩

/-- C5: monotonic resolution: for elapsed times `t1 < t2` that both
resolve to a stage, the index resolved for `t2` is at least the index
resolved for `t1`. -/
theorem c5_monotonic_resolution (l : List Stage) (t1 t2 : ℚ) (h12 : t1 < t2)
    (i j : Nat) (h1 : resolveIdx l t1 = some i)
    (h2 : resolveIdx l t2 = some j) : i ≤ j := by
  induction l generalizing i j with
  | nil => cases h1
  | cons s rest ih =>
    by_cases hs1 : t1 < s.duration
    · simp only [resolveIdx, if_pos hs1, Option.some.injEq] at h1
      subst h1
      exact Nat.zero_le j
    · have hs2 : ¬ t2 < s.duration := fun hc =>
        hs1 (lt_trans h12 hc)
      simp only [resolveIdx, if_neg hs1, Option.map_eq_some'] at h1
      simp only [resolveIdx, if_neg hs2, Option.map_eq_some'] at h2
      obtain ⟨i', hi', hii⟩ := h1
      obtain ⟨j', hj', hjj⟩ := h2
      subst hii
      subst hjj
      exact Nat.succ_le_succ (ih i' j' hi' hj')

/-- Witness for C5: on the three-stage table, 50 resolves to stage 0 and
130 to stage 1, and 0 ≤ 1. -/
theorem c5_monotonic_resolution_witness :
    (50 : ℚ) < 130 ∧ resolveIdx stageTable3 50 = some 0 ∧
    resolveIdx stageTable3 130 = some 1 ∧ (0 : Nat) ≤ 1 :=
  ⟨by decide, by decide, by decide,
   c5_monotonic_resolution stageTable3 50 130 (by decide) 0 1 (by decide) (by decide)⟩

/-- C6: if the elapsed time is at least every stage's boundary, `tick`
returns the termination sentinel `none` (mapped to `Finished` by the
framework). -/
theorem c6_exhausted_returns_none (shape : StagesShape) (t : ℚ)
    (h : ∀ s ∈ shape.stages, s.duration ≤ t) : shape.tick t = none :=
  (tickScan_eq_none_iff _ _).mpr h

/-- Witness for C6: on the full ten-stage source table every boundary is
at most 1200, and `tick` at 1200 is the sentinel. -/
theorem c6_exhausted_returns_none_witness :
    (∀ s ∈ stagesDefault, s.duration ≤ (1200 : ℚ)) ∧
    StagesShape.tick ⟨stagesDefault⟩ 1200 = none :=
  ⟨by decide, c6_exhausted_returns_none ⟨stagesDefault⟩ 1200 (by decide)⟩

/-- C7 (counterexample): constructing `StagesShape` from the empty stage
list succeeds — no `ConfigurationError` is raised, none exists in the
source file — and the resulting shape's very first `tick` is already the
termination sentinel. -/
theorem c7_empty_table_counterexample :
    mkStagesShape [] = Except.ok ⟨[]⟩ ∧
    mkStagesShape [] ≠ Except.error PyExc.configurationError ∧
    StagesShape.tick ⟨[]⟩ 0 = none := by
  refine ⟨rfl, ?_, rfl⟩
  intro h
  simp [mkStagesShape] at h

/-- C7 (amended): constructing a stage table from an empty stage list
succeeds (no error is raised at construction), and the resulting table
behaves as immediately finished: every elapsed time yields the
termination sentinel. -/
theorem c7_empty_table_immediately_finished :
    mkStagesShape [] = Except.ok ⟨[]⟩ ∧
    ∀ t : ℚ, StagesShape.tick ⟨[]⟩ t = none :=
  ⟨rfl, fun _ => rfl⟩

/-- One reconcile tick never raises the active count above the target
concurrency. -/
theorem reconcileStep_le_target (a target cap f : Nat) :
    reconcileStep a target cap f ≤ target := by
  by_cases h : a < target <;>
    simp only [reconcileStep, attemptedStarts, if_pos, if_neg, h, ite_true,
      ite_false] <;> omega

/-- One reconcile tick starts at most `cap` new workers. -/
theorem reconcileStep_le_add (a target cap f : Nat) :
    reconcileStep a target cap f ≤ a + cap := by
  by_cases h : a < target <;>
    simp only [reconcileStep, attemptedStarts, if_pos, if_neg, h, ite_true,
      ite_false] <;> omega

/-- One reconcile tick below target stays within both the per-tick start
cap and the target. -/
theorem reconcileStep_le_min (current target cap f : Nat)
    (h : current < target) :
    reconcileStep current target cap f ≤ min (current + cap) target := by
  simp only [reconcileStep, attemptedStarts, if_pos h]
  omega

/-- With a per-tick cap of 2, the active count after any failure pattern
is bounded by `min target (a + 2 * ticks)`. -/
theorem runTicks_two_le (target : Nat) (fs : List Nat) (a : Nat)
    (ha : a ≤ target) :
    runTicks target 2 fs a ≤ min target (a + 2 * fs.length) := by
  induction fs generalizing a with
  | nil =>
    simp only [runTicks, List.foldl_nil, List.length_nil]
    omega
  | cons f fs ih =>
    have h2 := reconcileStep_le_add a target 2 f
    have h3 := ih (reconcileStep a target 2 f) (reconcileStep_le_target a target 2 f)
    simp only [runTicks, List.foldl_cons, List.length_cons] at h3 ⊢
    omega

/-- With a per-tick cap of 2 and no start failures, the active count after
`n` ticks is exactly `min target (a + 2 * n)`. -/
theorem runTicks_replicate_two (target n a : Nat) (ha : a ≤ target) :
    runTicks target 2 (List.replicate n 0) a = min target (a + 2 * n) := by
  induction n generalizing a with
  | zero =>
    simp only [List.replicate_zero, runTicks, List.foldl_nil]
    omega
  | succ n ih =>
    have hstep : reconcileStep a target 2 0 = min target (a + 2) := by
      by_cases h : a < target <;>
        simp only [reconcileStep, attemptedStarts, if_pos, if_neg, h,
          ite_true, ite_false] <;> omega
    have h2 := ih (reconcileStep a target 2 0) (reconcileStep_le_target a target 2 0)
    simp only [List.replicate_succ, runTicks, List.foldl_cons] at h2 ⊢
    rw [h2, hstep]
    omega

/-- C8: the controller starts at most `ceil(spawn_rate * dt)` workers per
reconcile tick and never raises the active count above the target; with
`spawn_rate = 2`/s, `dt = 1` s, target 10 and initial count 0, after `n`
ticks the active count is at most `min 10 (2 * n)`, with equality when no
worker start fails. -/
theorem c8_ramp_up_bound :
    (∀ (spawn_rate dt : ℚ) (current target f : Nat), current < target →
      reconcileStep current target (spawnCap spawn_rate dt) f ≤
        min (current + spawnCap spawn_rate dt) target) ∧
    (∀ fs : List Nat,
      runTicks 10 (spawnCap 2 1) fs 0 ≤ min 10 (2 * fs.length)) ∧
    (∀ n : Nat,
      runTicks 10 (spawnCap 2 1) (List.replicate n 0) 0 = min 10 (2 * n)) := by
  have hcap : spawnCap 2 1 = 2 := by
    show (Rat.ceil ((2 : ℚ) * 1)).toNat = 2
    rw [mul_one]
    rfl
  refine ⟨?_, ?_, ?_⟩
  · intro spawn_rate dt current target f h
    exact reconcileStep_le_min current target (spawnCap spawn_rate dt) f h
  · intro fs
    rw [hcap]
    simpa using runTicks_two_le 10 fs 0 (by omega)
  · intro n
    rw [hcap]
    simpa using runTicks_replicate_two 10 n 0 (by omega)

/-- Witness for C8: one ramp-up tick from 0 toward 10; three ticks with
failures stay at most 6; four clean ticks reach exactly 8. -/
theorem c8_ramp_up_bound_witness :
    ((0 : Nat) < 10 ∧
      reconcileStep 0 10 (spawnCap 2 1) 0 ≤ min (0 + spawnCap 2 1) 10) ∧
    runTicks 10 (spawnCap 2 1) [1, 0, 2] 0 ≤ min 10 (2 * 3) ∧
    runTicks 10 (spawnCap 2 1) (List.replicate 4 0) 0 = min 10 (2 * 4) :=
  ⟨⟨by decide, c8_ramp_up_bound.1 2 1 0 10 0 (by decide)⟩,
   c8_ramp_up_bound.2.1 [1, 0, 2],
   c8_ramp_up_bound.2.2 4⟩

/-- C9: `send` never propagates an exception to its caller: for every
input and every outcome of the endpoint invocation — success, any raised
exception, or an invalid model count — it fires exactly one request
event, with `response_time` populated and the `exception` field equal to
the caught exception on failure and `None` on success. -/
theorem c9_send_never_raises (self : SageMakerClient)
    (endpoint_name use_case model_name : String) (model_count : Int)
    (invoke_outcome : Except PyExc Unit) (elapsed_ms : ℚ) :
    ∃ m : RequestMeta,
      self.send endpoint_name use_case model_name model_count
        invoke_outcome elapsed_ms = [m] ∧
      m.response_time = some elapsed_ms ∧
      (model_count ≤ 0 → m.exception = some PyExc.valueError) ∧
      (∀ e, 0 < model_count → invoke_outcome = Except.error e →
        m.exception = some e) ∧
      (0 < model_count → invoke_outcome = Except.ok () →
        m.exception = none) := by
  rcases lt_or_le (model_count - 1) 0 with hmc | hmc
  · have hmc' : model_count < 1 := by omega
    refine ⟨⟨"InvokeEndpoint", model_name, model_count, 0,
      some PyExc.valueError, some elapsed_ms⟩, ?_, rfl, fun _ => rfl, ?_, ?_⟩
    · simp [SageMakerClient.send, hmc']
    · intro e h1 h2
      exact absurd h1 (by omega)
    · intro h1 h2
      exact absurd h1 (by omega)
  · have hmc' : ¬ model_count < 1 := by omega
    cases invoke_outcome with
    | ok u =>
      cases u
      refine ⟨⟨"InvokeEndpoint", model_name, model_count, 0,
        none, some elapsed_ms⟩, ?_, rfl, ?_, ?_, fun _ _ => rfl⟩
      · simp [SageMakerClient.send, hmc']
      · intro hle
        exact absurd hle (by omega)
      · intro e h1 h2
        simp at h2
    | error e0 =>
      refine ⟨⟨"InvokeEndpoint", model_name, model_count, 0,
        some e0, some elapsed_ms⟩, ?_, rfl, ?_, ?_, ?_⟩
      · simp [SageMakerClient.send, hmc']
      · intro hle
        exact absurd hle (by omega)
      · intro e h1 h2
        cases h2
        rfl
      · intro h1 h2
        simp at h2

/-- Witness for C9: a concrete successful call with model count 5 fires
one event with no exception and the measured time. -/
theorem c9_send_never_raises_witness :
    ∃ m : RequestMeta,
      SageMakerClient.send ⟨"pay", content_type⟩ "ep" "cv" "vgg16" 5
        (Except.ok ()) 3 = [m] ∧
      m.response_time = some 3 ∧
      ((5 : Int) ≤ 0 → m.exception = some PyExc.valueError) ∧
      (∀ e, (0 : Int) < 5 →
        (Except.ok () : Except PyExc Unit) = Except.error e →
        m.exception = some e) ∧
      ((0 : Int) < 5 →
        (Except.ok () : Except PyExc Unit) = Except.ok () →
        m.exception = none) :=
  c9_send_never_raises ⟨"pay", content_type⟩ "ep" "cv" "vgg16" 5
    (Except.ok ()) 3

/-- C10: constructing a `SageMakerClient` requires the module-global
`"payload"` key: with the key unset, construction fails with `KeyError`
(so the failure is not deferred to `send` time, which is only reachable
through a constructed client); after `SageMakerUser.__init__` has set the
global from the payload file, construction succeeds with that payload. -/
theorem c10_payload_global_required :
    SageMakerClient.init ⟨none⟩ = Except.error PyExc.keyError ∧
    ∀ (payload_contents : String) (g : Globals),
      (SageMakerUser.init payload_contents g).1.payload =
        some payload_contents ∧
      (SageMakerUser.init payload_contents g).2 =
        Except.ok ⟨payload_contents, content_type⟩ :=
  ⟨rfl, fun payload_contents g => ⟨rfl, rfl⟩⟩
